import Mathlib

/-!
Shallow embedding of the `mcstatus` repository core used by the claims:
`mcstatus/status_response.py` (payload validation and response building),
`mcstatus/server.py` (address parsing, handle construction, Java/Bedrock
lookup, retry call sites), and the composition done in
`JavaServer._retry_status`.  Python runtime values are modelled by `PyObj`,
Python exceptions by `PyErr`, and every fallible operation returns
`Except PyErr _`.
-/

namespace Mcstatus

/-- Python runtime values that occur in decoded status payloads. -/
inductive PyObj : Type where
  | pystr (s : String)
  | pyint (n : Int)
  | pybool (b : Bool)
  | pydict (entries : List (String × PyObj))
  | pylist (items : List PyObj)
  | pynone

mutual

/-- Structural equality on `PyObj`, modelling Python `==` on these values. -/
def PyObj.beq : PyObj → PyObj → Bool
  | .pystr a, .pystr b => a == b
  | .pyint a, .pyint b => a == b
  | .pybool a, .pybool b => a == b
  | .pydict a, .pydict b => PyObj.beqEntries a b
  | .pylist a, .pylist b => PyObj.beqItems a b
  | .pynone, .pynone => true
  | _, _ => false

/-- Structural equality on dict entry lists. -/
def PyObj.beqEntries : List (String × PyObj) → List (String × PyObj) → Bool
  | [], [] => true
  | (k1, v1) :: r1, (k2, v2) :: r2 => k1 == k2 && PyObj.beq v1 v2 && PyObj.beqEntries r1 r2
  | _, _ => false

/-- Structural equality on item lists. -/
def PyObj.beqItems : List PyObj → List PyObj → Bool
  | [], [] => true
  | v1 :: r1, v2 :: r2 => PyObj.beq v1 v2 && PyObj.beqItems r1 r2
  | _, _ => false

end

instance : BEq PyObj := ⟨PyObj.beq⟩

/-- Python exception kinds raised by the embedded code. -/
inductive PyErr : Type where
  | valueError (msg : String)
  | typeError (msg : String)
  | indexError
  | keyError
  | attributeError
deriving DecidableEq, Repr

/-- First-match association lookup, modelling Python `dict` access on the
string-keyed payload dictionaries (their keys are unique). -/
def assocFind? : List (String × PyObj) → String → Option PyObj
  | [], _ => none
  | (k, v) :: rest, key => if k = key then some v else assocFind? rest key

/-- Substring test on character lists, modelling Python `in` on strings. -/
def strContainsSub (needle : List Char) : List Char → Bool
  | [] => needle.isEmpty
  | c :: rest => List.isPrefixOf needle (c :: rest) || strContainsSub needle rest

/-- Python `in` operator as used by `_validate_data` (`required_key not in raw`).
On a dict it is key membership, on a string it is substring search, on a list it
is element membership; on the remaining values it raises `TypeError`. -/
def pyContains (raw : PyObj) (key : String) : Except PyErr Bool :=
  match raw with
  | .pydict d => .ok (assocFind? d key).isSome
  | .pystr s => .ok (strContainsSub key.toList s.toList)
  | .pylist l => .ok (l.contains (.pystr key))
  | _ => .error (.typeError "argument is not iterable")

/-- Python subscript `raw[key]` with a string key: dict lookup (`KeyError` when
absent), `TypeError` on every non-dict value. -/
def pySubscript (raw : PyObj) (key : String) : Except PyErr PyObj :=
  match raw with
  | .pydict d =>
    match assocFind? d key with
    | some v => .ok v
    | none => .error .keyError
  | _ => .error (.typeError "value is not subscriptable with a string")

/-- Python `dict.get(key)` returning `None` (here `Option`) when absent.  Only a
dict ever reaches the call sites; other values yield `none` vacuously. -/
def pyGet? (raw : PyObj) (key : String) : Option PyObj :=
  match raw with
  | .pydict d => assocFind? d key
  | _ => none

/-- The `type` arguments given to `_validate_data` at its call sites. -/
inductive PyType : Type where
  | tstr
  | tint
  | tdict
  | tlist
deriving DecidableEq, Repr

/-- Python `isinstance` for the types used in validation.  `bool` is a subclass
of `int` in Python, so a boolean passes the `int` check. -/
def isinstance : PyObj → PyType → Bool
  | .pystr _, .tstr => true
  | .pyint _, .tint => true
  | .pybool _, .tint => true
  | .pydict _, .tdict => true
  | .pylist _, .tlist => true
  | _, _ => false

/-- Embeds `_validate_data` from `mcstatus/status_response.py`: for each
`(required_key, required_type)` pair, raise `ValueError` when the key is absent
and `TypeError` when its value has the wrong type. -/
def _validate_data (raw : PyObj) (who : String) :
    List (String × PyType) → Except PyErr Unit
  | [] => .ok ()
  | (key, ty) :: rest => do
    let present ← pyContains raw key
    if !present then
      .error (.valueError ("Invalid " ++ who ++ " object (no " ++ key ++ " value)"))
    else
      let v ← pySubscript raw key
      if isinstance v ty then _validate_data raw who rest
      else .error (.typeError ("Invalid " ++ who ++ " object (" ++ key ++ " has a wrong type)"))

/-- Python truthiness for `PyObj`, used by `_parse_motd` (`if entry.get(style_key)`). -/
def pyTruthy : PyObj → Bool
  | .pystr s => !s.isEmpty
  | .pyint n => n != 0
  | .pybool b => b
  | .pydict d => !d.isEmpty
  | .pylist l => !l.isEmpty
  | .pynone => false

/-- The `STYLE_MAP["color"]` sub-dictionary of `mcstatus/status_response.py`. -/
def colorCode? : String → Option String
  | "dark_red" => some "4"
  | "red" => some "c"
  | "gold" => some "6"
  | "yellow" => some "e"
  | "dark_green" => some "2"
  | "green" => some "a"
  | "aqua" => some "b"
  | "dark_aqua" => some "3"
  | "dark_blue" => some "1"
  | "blue" => some "9"
  | "light_purple" => some "d"
  | "dark_purple" => some "5"
  | "white" => some "f"
  | "gray" => some "7"
  | "dark_gray" => some "8"
  | "black" => some "0"
  | _ => none

/-- A value of `STYLE_MAP`: either a literal one-character code, or the nested
color dictionary. -/
inductive StyleVal : Type where
  | code (c : String)
  | colorMap
deriving DecidableEq, Repr

/-- The top-level `STYLE_MAP` of `mcstatus/status_response.py`, in its
insertion (iteration) order. -/
def STYLE_MAP : List (String × StyleVal) :=
  [("color", .colorMap), ("bold", .code "l"), ("strikethrough", .code "m"),
   ("italic", .code "o"), ("underlined", .code "n"), ("obfuscated", .code "k"),
   ("reset", .code "r")]

/-- Inner loop of `_parse_motd` over `STYLE_MAP` for one `entry` dict: a truthy
style value appends a legacy code; for the color map a missing key
(`KeyError`) is swallowed, while an unhashable key raises `TypeError`. -/
def applyStyles (entry : List (String × PyObj)) :
    List (String × StyleVal) → Except PyErr String
  | [] => .ok ""
  | (key, sv) :: rest => do
    let v := (assocFind? entry key).getD .pynone
    let piece ←
      if pyTruthy v then
        match sv with
        | .code c => Except.ok ("§" ++ c)
        | .colorMap =>
          match v with
          | .pystr s => Except.ok ((colorCode? s).elim "" (fun c => "§" ++ c))
          | .pylist _ => Except.error (.typeError "unhashable type")
          | .pydict _ => Except.error (.typeError "unhashable type")
          | _ => Except.ok ""
      else Except.ok ""
    let restS ← applyStyles entry rest
    .ok (piece ++ restS)

/-- One iteration of the `for entry in entries` loop of `_parse_motd`: style
codes followed by `entry.get("text", "")`.  A non-dict entry raises
`AttributeError` (`entry.get`), a non-string text raises `TypeError` on
concatenation. -/
def motdEntry (entry : PyObj) : Except PyErr String :=
  match entry with
  | .pydict d => do
    let styled ← applyStyles d STYLE_MAP
    let t ←
      match assocFind? d "text" with
      | none => Except.ok ""
      | some (.pystr s) => Except.ok s
      | some _ => Except.error (.typeError "can only concatenate str to str")
    .ok (styled ++ t)
  | _ => .error .attributeError

/-- Python iteration used by the `for entry in entries` loop: a list yields its
items, a dict its keys, a string its characters; other values raise
`TypeError`. -/
def pyIterate : PyObj → Except PyErr (List PyObj)
  | .pylist l => .ok l
  | .pydict d => .ok (d.map (fun kv => .pystr kv.1))
  | .pystr s => .ok (s.toList.map (fun c => .pystr (String.mk [c])))
  | _ => .error (.typeError "object is not iterable")

/-- Embeds `JavaStatusResponse._parse_motd`: a string is returned unchanged; a
dict uses its `extra` list and `text` tail; any other value is iterated as the
entry list with an empty tail. -/
def JavaStatusResponse.parse_motd (raw_motd : PyObj) : Except PyErr String :=
  match raw_motd with
  | .pystr s => .ok s
  | other => do
    let pair :=
      match other with
      | .pydict d => ((assocFind? d "extra").getD (.pylist []),
                      (assocFind? d "text").getD (.pystr ""))
      | o => (o, .pystr "")
    let entries ← pyIterate pair.1
    let parts ← entries.mapM motdEntry
    let endS ←
      match pair.2 with
      | .pystr s => Except.ok s
      | _ => Except.error (.typeError "can only concatenate str to str")
    .ok (String.join parts ++ endS)

/-- Embeds the `JavaStatusPlayer` dataclass: fields hold the raw
(dynamically typed) values taken from the payload dict. -/
structure JavaStatusPlayer : Type where
  name : PyObj
  id : PyObj

/-- Embeds `JavaStatusPlayer.build`. -/
def JavaStatusPlayer.build (raw : PyObj) : Except PyErr JavaStatusPlayer := do
  _validate_data raw "player" [("name", .tstr), ("id", .tstr)]
  let n ← pySubscript raw "name"
  let i ← pySubscript raw "id"
  pure ⟨n, i⟩

/-- Embeds the `JavaStatusPlayers` dataclass. -/
structure JavaStatusPlayers : Type where
  online : PyObj
  max : PyObj
  sample : Option (List JavaStatusPlayer)

/-- Embeds `JavaStatusPlayers.build`: validates `online`/`max`, then builds the
optional `sample` list when the key is present (validated as a list, each entry
built by `JavaStatusPlayer.build`). -/
def JavaStatusPlayers.build (raw : PyObj) : Except PyErr JavaStatusPlayers := do
  _validate_data raw "players" [("online", .tint), ("max", .tint)]
  let present ← pyContains raw "sample"
  let sample ←
    if present then do
      _validate_data raw "players" [("sample", .tlist)]
      let sampleRaw ← pySubscript raw "sample"
      match sampleRaw with
      | .pylist items => do
        let players ← items.mapM JavaStatusPlayer.build
        pure (some players)
      | _ => pure none
    else pure (none : Option (List JavaStatusPlayer))
  let online ← pySubscript raw "online"
  let maxP ← pySubscript raw "max"
  pure ⟨online, maxP, sample⟩

/-- Embeds the `JavaStatusVersion` dataclass. -/
structure JavaStatusVersion : Type where
  name : PyObj
  protocol : PyObj

/-- Embeds `JavaStatusVersion.build`. -/
def JavaStatusVersion.build (raw : PyObj) : Except PyErr JavaStatusVersion := do
  _validate_data raw "version" [("name", .tstr), ("protocol", .tint)]
  let n ← pySubscript raw "name"
  let p ← pySubscript raw "protocol"
  pure ⟨n, p⟩

/-- Embeds the `JavaStatusResponse` dataclass.  `latency` is a float in the
source; it is only carried through, never computed with, so it is modelled as a
rational. -/
structure JavaStatusResponse : Type where
  raw : PyObj
  players : JavaStatusPlayers
  version : JavaStatusVersion
  motd : String
  icon : Option PyObj
  latency : ℚ

/-- Embeds `JavaStatusResponse.build`: top-level validation of `players`,
`version` and `description`, then the nested builds, the MOTD parse and the
optional `favicon`, in the evaluation order of the source. -/
def JavaStatusResponse.build (raw : PyObj) (latency : ℚ) :
    Except PyErr JavaStatusResponse := do
  _validate_data raw "status" [("players", .tdict), ("version", .tdict), ("description", .tstr)]
  let playersRaw ← pySubscript raw "players"
  let versionRaw ← pySubscript raw "version"
  let descriptionRaw ← pySubscript raw "description"
  let players ← JavaStatusPlayers.build playersRaw
  let version ← JavaStatusVersion.build versionRaw
  let motd ← JavaStatusResponse.parse_motd descriptionRaw
  pure ⟨raw, players, version, motd, pyGet? raw "favicon", latency⟩

/-- Embeds the `BedrockStatusPlayers` dataclass (fields already converted by
`int(...)` in `BedrockStatusResponse.build`). -/
structure BedrockStatusPlayers : Type where
  online : Int
  max : Int
deriving DecidableEq, Repr

/-- Embeds the `BedrockStatusVersion` dataclass: `protocol` passes through
`int(...)`, `name` and `brand` are taken raw. -/
structure BedrockStatusVersion : Type where
  name : PyObj
  protocol : Int
  brand : PyObj

/-- Embeds the `BedrockStatusResponse` dataclass. -/
structure BedrockStatusResponse : Type where
  players : BedrockStatusPlayers
  version : BedrockStatusVersion
  motd : PyObj
  latency : ℚ
  map_name : Option PyObj
  gamemode : Option PyObj

/-- Python list indexing `l[i]` for non-negative `i`: `IndexError` when out of
range. -/
def pyIndex (l : List PyObj) (i : Nat) : Except PyErr PyObj :=
  match l.get? i with
  | some v => .ok v
  | none => .error .indexError

/-- Decimal digits to a natural number. -/
def decimalNat : List Char → Nat
  | [] => 0
  | ds => ds.foldl (fun acc c => 10 * acc + (c.toNat - '0'.toNat)) 0

/-- Python `int(s, 10)` on a string: optional surrounding spaces, optional
sign, then at least one decimal digit; anything else raises `ValueError`. -/
def parseDecimal? (l : List Char) : Option Int :=
  let t := ((l.dropWhile (· == ' ')).reverse.dropWhile (· == ' ')).reverse
  match t with
  | '-' :: ds => if !ds.isEmpty && ds.all Char.isDigit then some (-(decimalNat ds : Int)) else none
  | '+' :: ds => if !ds.isEmpty && ds.all Char.isDigit then some (decimalNat ds : Int) else none
  | ds => if !ds.isEmpty && ds.all Char.isDigit then some (decimalNat ds : Int) else none

/-- Python `int(x)` as used on decoded Bedrock fields: identity on ints,
`0`/`1` on bools, decimal parse on strings, `TypeError` otherwise. -/
def pyIntConv : PyObj → Except PyErr Int
  | .pyint n => .ok n
  | .pybool b => .ok (if b then 1 else 0)
  | .pystr s =>
    match parseDecimal? s.toList with
    | some n => .ok n
    | none => .error (.valueError "invalid literal for int() with base 10")
  | _ => .error (.typeError "int() argument must be a string or a number")

/-- Embeds `BedrockStatusResponse.build`: indices 7 and 8 are read under
`try/except IndexError` giving `None` when absent; the first six positions are
indexed directly (an `IndexError` there propagates), with `int(...)` conversion
at positions 4, 5 and 2, in the evaluation order of the source. -/
def BedrockStatusResponse.build (decoded_data : List PyObj) (latency : ℚ) :
    Except PyErr BedrockStatusResponse := do
  let map_name := decoded_data.get? 7
  let gamemode := decoded_data.get? 8
  let online ← pyIntConv (← pyIndex decoded_data 4)
  let maxP ← pyIntConv (← pyIndex decoded_data 5)
  let vname ← pyIndex decoded_data 3
  let protocol ← pyIntConv (← pyIndex decoded_data 2)
  let brand ← pyIndex decoded_data 0
  let motd ← pyIndex decoded_data 1
  pure ⟨⟨online, maxP⟩, ⟨vname, protocol, brand⟩, motd, latency, map_name, gamemode⟩

/-- Python `isinstance(x, str)` / `isinstance(x, int)` checks of
`MCServer.ensure_valid` need the integer value of an int-like object. -/
def pyAsInt : PyObj → Int
  | .pyint n => n
  | .pybool b => if b then 1 else 0
  | _ => 0

/-- String payload of a `PyObj`, used after an `isinstance(x, str)` check. -/
def pyAsStr : PyObj → String
  | .pystr s => s
  | _ => ""

/-- Embeds `MCServer.ensure_valid`: `TypeError` when the host is not a string
or the port is not an integer, `ValueError` when the port is outside
`[0, 65535]`. -/
def MCServer.ensure_valid (host port : PyObj) : Except PyErr Unit := do
  if !(isinstance host .tstr) then
    .error (.typeError "Host must be a string address")
  else if !(isinstance port .tint) then
    .error (.typeError "Port must be an integer port number")
  else if pyAsInt port > 65535 ∨ pyAsInt port < 0 then
    .error (.valueError "Port must be within the allowed range (0-2^16)")
  else
    pure ()

/-- The state a constructed server handle keeps (host and port after
`ensure_valid`; the timeout field carries no claim-relevant behavior). -/
structure MCServerT : Type where
  host : String
  port : Int
deriving DecidableEq, Repr

/-- Embeds `MCServer.__init__`: validate, then store host and port. -/
def MCServer.init (host port : PyObj) : Except PyErr MCServerT := do
  MCServer.ensure_valid host port
  pure ⟨pyAsStr host, pyAsInt port⟩

/-- Splits a character list at the first occurrence of `sep`, returning the
part before, whether `sep` occurred, and the part after — Python
`str.partition`. -/
def partitionFirst (sep : Char) : List Char → List Char × Bool × List Char
  | [] => ([], false, [])
  | c :: rest =>
    if c = sep then ([], true, rest)
    else
      let r := partitionFirst sep rest
      (c :: r.1, r.2.1, r.2.2)

/-- Suffix after the last `@`, i.e. Python `netloc.rpartition(chr(64))[2]`
(the whole string when `@` is absent). -/
def afterLastAt (l : List Char) : List Char :=
  (l.reverse.takeWhile (· != '@')).reverse

/-- Embeds the `_hostinfo` computation of Python `urllib.parse` on the netloc:
strip userinfo, handle a bracketed IPv6 literal, else split host from port at
the first colon; an empty port string counts as no port. -/
def hostinfoOf (netloc : List Char) : List Char × Option (List Char) :=
  let hi := afterLastAt netloc
  let brSplit := partitionFirst '[' hi
  if brSplit.2.1 then
    let inner := partitionFirst ']' brSplit.2.2
    let portPart := partitionFirst ':' inner.2.2
    (inner.1, if portPart.2.2.isEmpty then none else some portPart.2.2)
  else
    let split := partitionFirst ':' hi
    (split.1, if split.2.2.isEmpty then none else some split.2.2)

/-- Embeds the `port` property of Python `urllib.parse`: decimal parse of the
port part (`ValueError` when unparsable), then a range check against
`[0, 65535]` (`ValueError` when outside). -/
def netlocPort (netloc : List Char) : Except PyErr (Option Int) :=
  match (hostinfoOf netloc).2 with
  | none => .ok none
  | some pl =>
    match parseDecimal? pl with
    | none => .error (.valueError "Port could not be cast to integer value")
    | some p =>
      if 0 ≤ p ∧ p ≤ 65535 then .ok (some p)
      else .error (.valueError "Port out of range 0-65535")

/-- The netloc `urlparse` extracts from `"//" ++ address`: the prefix of the
address up to the first `/`, `?` or `#`. -/
def netlocOf (address : String) : List Char :=
  address.toList.takeWhile (fun c => c != '/' && c != '?' && c != '#')

/-- Embeds `MCServer.parse_address`: `urlparse("//" + address)`, then
`ValueError` on an empty hostname, else return the lowercased hostname
together with the validated optional port. -/
def MCServer.parse_address (address : String) : Except PyErr (String × Option Int) := do
  let netloc := netlocOf address
  let hostRaw := (hostinfoOf netloc).1
  if hostRaw.isEmpty then
    .error (.valueError ("Invalid address " ++ address))
  else do
    let port ← netlocPort netloc
    pure (String.mk (hostRaw.map Char.toLower), port)

/-- An SRV answer record as used by `JavaServer.lookup` (`answer.target`,
`answer.port`). -/
structure SRVRecord : Type where
  target : String
  port : Int
deriving DecidableEq, Repr

/-- Python `str.rstrip(".")`. -/
def rstripDots (s : String) : String :=
  String.mk ((s.toList.reverse.dropWhile (· == '.')).reverse)

/-- A DNS SRV resolver oracle: maps a query name to its answer list, or to an
error standing for any raised exception (the code catches every exception). -/
def DnsSrv : Type := String → Except Unit (List SRVRecord)

/-- Embeds `JavaServer.lookup`: parse the address; when a port is present use
it directly; when absent, default to 25565 and attempt an SRV lookup of
`"_minecraft._tcp." ++ host`, taking the first answer's target (with trailing
dots stripped) and port when the answer list is non-empty, and swallowing any
resolver exception.  The returned list records the DNS queries that were
performed. -/
def JavaServer.lookup (dns : DnsSrv) (address : String) :
    Except PyErr (MCServerT × List String) := do
  let parsed ← MCServer.parse_address address
  match parsed.2 with
  | some port => do
    let srv ← MCServer.init (.pystr parsed.1) (.pyint port)
    pure (srv, [])
  | none => do
    let query := "_minecraft._tcp." ++ parsed.1
    let hp : String × Int :=
      match dns query with
      | .error _ => (parsed.1, 25565)
      | .ok [] => (parsed.1, 25565)
      | .ok (answer :: _) => (rstripDots answer.target, answer.port)
    let srv ← MCServer.init (.pystr hp.1) (.pyint hp.2)
    pure (srv, [query])

/-- Embeds `BedrockServer.lookup`: parse the address and construct the handle,
falling back to the constructor's default port (19139 in this source) when the
address has none.  No DNS resolver is consulted. -/
def BedrockServer.lookup (address : String) : Except PyErr MCServerT := do
  let parsed ← MCServer.parse_address address
  match parsed.2 with
  | none => MCServer.init (.pystr parsed.1) (.pyint 19139)
  | some port => MCServer.init (.pystr parsed.1) (.pyint port)

/-- Failure kinds the retry wrapper distinguishes: transient I/O-kind errors
versus terminal validation-kind errors. -/
inductive RetryErr : Type where
  | transient (msg : String)
  | terminal (msg : String)
deriving DecidableEq, Repr

/-- Modelled from the spec: the decorator `mcstatus.utils.retry` is not under
`src/`, only its call sites in `mcstatus/server.py` are.  Per the spec, the
wrapper runs the unit of work (`work`, given the zero-based attempt index) up
to the configured number of attempts, retrying a fresh attempt after an
I/O-kind (transient) failure, propagating the last failure unchanged on
exhaustion, and propagating a validation-kind (terminal) failure immediately
without retrying.  `remaining` counts the attempts still allowed after the
current one. -/
def retryGo {α : Type} (work : Nat → Except RetryErr α) (attempt : Nat) :
    Nat → Except RetryErr α
  | 0 => work attempt
  | remaining + 1 =>
    match work attempt with
    | .ok v => .ok v
    | .error (.terminal m) => .error (.terminal m)
    | .error (.transient _) => retryGo work (attempt + 1) remaining

/-- Modelled from the spec: `retry(tries=n)` applied to a unit of work. -/
def retry {α : Type} (tries : Nat) (work : Nat → Except RetryErr α) : Except RetryErr α :=
  retryGo work 0 (tries - 1)

/-- The `tries` argument at each `@retry` call site of `mcstatus/server.py`. -/
def retryCallSiteTries : List (String × Nat) :=
  [("JavaServer._retry_ping", 3), ("JavaServer._retry_async_ping", 3),
   ("JavaServer._retry_status", 3), ("JavaServer._retry_async_status", 3),
   ("JavaServer._retry_query", 3), ("JavaServer._retry_async_query", 3),
   ("BedrockServer.status", 3), ("BedrockServer.async_status", 3)]

/-- Events of one `ServerPinger` attempt, in the order the operations run. -/
inductive PingEvent : Type where
  | handshake
  | readStatus
  | testPing
deriving DecidableEq, Repr

/-- The pinger operations one attempt of `JavaServer._retry_status` performs on
a single handshaken channel, given as oracles for their outcomes. -/
structure PingerOps : Type where
  handshake : Except PyErr Unit
  read_status : Except PyErr JavaStatusResponse
  test_ping : Except PyErr ℚ

/-- Embeds the body of `JavaServer._retry_status` (the sync and async bodies
are identical up to awaiting): handshake, read the status, then overwrite the
response's `latency` with the value `test_ping` returned.  The event list
records which operations ran, in order. -/
def JavaServer.retry_status_attempt (p : PingerOps) :
    Except PyErr JavaStatusResponse × List PingEvent :=
  match p.handshake with
  | .error e => (.error e, [.handshake])
  | .ok () =>
    match p.read_status with
    | .error e => (.error e, [.handshake, .readStatus])
    | .ok result =>
      match p.test_ping with
      | .error e => (.error e, [.handshake, .readStatus, .testPing])
      | .ok l => (.ok { result with latency := l }, [.handshake, .readStatus, .testPing])

/-- The dictionary entries of the raw payload used by
`TestServerPinger.test_read_status` (the JSON
`{"description": "A Minecraft Server", "players": {"max": 20, "online": 0},
"version": {"name": "1.8-pre1", "protocol": 44}}`). -/
def sampleRawEntries : List (String × PyObj) :=
  [("description", .pystr "A Minecraft Server"),
   ("players", .pydict [("max", .pyint 20), ("online", .pyint 0)]),
   ("version", .pydict [("name", .pystr "1.8-pre1"), ("protocol", .pyint 44)])]

/-- The raw payload of `TestServerPinger.test_read_status` as a `PyObj`. -/
def sampleRaw : PyObj := .pydict sampleRawEntries

/-- A raw payload whose three top-level keys are present with the right types,
but whose `players` dict is empty (missing its own required `online` key). -/
def emptyPlayersRaw : PyObj := .pydict
  [("players", .pydict []),
   ("version", .pydict [("name", .pystr "a"), ("protocol", .pyint 1)]),
   ("description", .pystr "x")]

/-- A raw payload with no `players` key at all. -/
def noPlayersRaw : PyObj := .pydict
  [("version", .pydict [("name", .pystr "a"), ("protocol", .pyint 1)]),
   ("description", .pystr "x")]

/-- A concrete response value used to exercise `retry_status_attempt`. -/
def sampleResponse : JavaStatusResponse :=
  ⟨.pynone, ⟨.pyint 0, .pyint 20, none⟩, ⟨.pystr "1.8-pre1", .pyint 44⟩,
   "A Minecraft Server", none, 0⟩

/- Helper lemmas about `Except`. -/

theorem exceptBindOk {ε α β : Type} {e : Except ε α} {f : α → Except ε β} {b : β} :
    (e >>= f) = Except.ok b ↔ ∃ a, e = Except.ok a ∧ f a = Except.ok b := by
  cases e <;> simp [Bind.bind, Except.bind]

theorem exceptBindErr {ε α β : Type} {e : Except ε α} {f : α → Except ε β} {err : ε} :
    (e >>= f) = Except.error err ↔
      e = Except.error err ∨ ∃ a, e = Except.ok a ∧ f a = Except.error err := by
  cases e <;> simp [Bind.bind, Except.bind]

theorem exceptIsOkIff {ε α : Type} {e : Except ε α} :
    e.isOk = true ↔ ∃ a, e = Except.ok a := by
  cases e <;> simp [Except.isOk, Except.toBool]

/- Helper lemmas about the embedded code. -/

theorem validate_data_mem {raw : PyObj} {who : String} {req : List (String × PyType)}
    (h : _validate_data raw who req = .ok ()) :
    ∀ key ty, (key, ty) ∈ req → ∃ v, pySubscript raw key = .ok v ∧ isinstance v ty = true := by
  induction req with
  | nil => intro key ty hmem; cases hmem
  | cons kt rest ih =>
    intro key ty hmem
    obtain ⟨k, t⟩ := kt
    unfold _validate_data at h
    rw [exceptBindOk] at h
    obtain ⟨present, hpresent, h⟩ := h
    by_cases hp : present = true
    · subst hp
      simp only [Bool.not_true, Bool.false_eq_true, if_false] at h
      rw [exceptBindOk] at h
      obtain ⟨v, hv, h⟩ := h
      by_cases hty : isinstance v t = true
      · rw [if_pos hty] at h
        rcases List.mem_cons.mp hmem with heq | hrest
        · obtain ⟨rfl, rfl⟩ := Prod.mk.injEq .. ▸ heq
          exact ⟨v, hv, hty⟩
        · exact ih h key ty hrest
      · rw [if_neg hty] at h
        cases h
    · rw [Bool.not_eq_true] at hp
      subst hp
      simp only [Bool.not_false, if_true] at h
      cases h

theorem ensure_valid_ok {host port : PyObj} (h : MCServer.ensure_valid host port = .ok ()) :
    (∃ s, host = .pystr s) ∧ 0 ≤ pyAsInt port ∧ pyAsInt port ≤ 65535 := by
  unfold MCServer.ensure_valid at h
  by_cases hs : isinstance host .tstr = true
  · rw [if_neg (by simp [hs])] at h
    refine ⟨?_, ?_⟩
    · cases host <;> simp [isinstance] at hs ⊢
    · by_cases hi : isinstance port .tint = true
      · rw [if_neg (by simp [hi])] at h
        by_cases hr : pyAsInt port > 65535 ∨ pyAsInt port < 0
        · rw [if_pos hr] at h; cases h
        · omega
      · rw [if_pos (by simp [hi])] at h; cases h
  · rw [if_pos (by simp [hs])] at h; cases h

theorem init_str_int (h : String) (p : Int) (h0 : 0 ≤ p) (h1 : p ≤ 65535) :
    MCServer.init (.pystr h) (.pyint p) = .ok ⟨h, p⟩ := by
  unfold MCServer.init MCServer.ensure_valid
  rw [if_neg (by simp [isinstance]), if_neg (by simp [isinstance]),
      if_neg (by simp [pyAsInt]; omega)]
  simp [Bind.bind, Except.bind, pyAsStr, pyAsInt, pure, Except.pure]

theorem netlocPort_ok_range {netloc : List Char} {p : Int}
    (h : netlocPort netloc = .ok (some p)) : 0 ≤ p ∧ p ≤ 65535 := by
  unfold netlocPort at h
  split at h
  · simp at h
  · split at h
    · cases h
    · split at h
      · rename_i hr
        obtain ⟨rfl⟩ : _ = p := by
          have h2 := Except.ok.inj h
          exact Option.some.inj h2
        exact hr
      · cases h

theorem parse_address_ok {address host : String} {po : Option Int}
    (h : MCServer.parse_address address = .ok (host, po)) :
    host ≠ "" ∧ ∀ p, po = some p → 0 ≤ p ∧ p ≤ 65535 := by
  unfold MCServer.parse_address at h
  by_cases he : ((hostinfoOf (netlocOf address)).1).isEmpty = true
  · rw [if_pos (by simp [he])] at h; cases h
  · rw [if_neg (by simp [he])] at h
    rw [exceptBindOk] at h
    obtain ⟨port, hport, hpure⟩ := h
    have hpure2 : (String.mk (((hostinfoOf (netlocOf address)).1).map Char.toLower), port)
        = (host, po) := by
      simpa [pure, Except.pure] using hpure
    obtain ⟨hh, hp⟩ := Prod.mk.injEq .. ▸ hpure2
    constructor
    · subst hh
      cases hl : (hostinfoOf (netlocOf address)).1 with
      | nil => rw [hl] at he; simp [List.isEmpty] at he
      | cons c rest =>
        intro hc
        have hdata := congrArg String.data hc
        rw [show ("" : String).data = [] from rfl] at hdata
        simp at hdata
    · intro p hpo
      rw [hp, hpo] at hport
      exact netlocPort_ok_range hport

/-- C1: for every address string parsed by `JavaServer.lookup`, an explicit
port makes the resolver return the parsed host and port unchanged with no SRV
query performed; with the port absent it queries SRV at
`"_minecraft._tcp." ++ host` and on a failed or empty lookup returns
`(host, 25565)` (the DNS failure is swallowed), while a successful
single-record lookup returns the record's target (trailing dots stripped) and
port. -/
theorem C1_java_lookup_resolution (dns : DnsSrv) (address host : String) :
    (∀ p : Int, MCServer.parse_address address = .ok (host, some p) →
       JavaServer.lookup dns address = .ok (⟨host, p⟩, [])) ∧
    (MCServer.parse_address address = .ok (host, none) →
       ((dns ("_minecraft._tcp." ++ host) = .error () ∨
         dns ("_minecraft._tcp." ++ host) = .ok []) →
          JavaServer.lookup dns address = .ok (⟨host, 25565⟩, ["_minecraft._tcp." ++ host])) ∧
       (∀ r : SRVRecord, dns ("_minecraft._tcp." ++ host) = .ok [r] →
          0 ≤ r.port → r.port ≤ 65535 →
          JavaServer.lookup dns address =
            .ok (⟨rstripDots r.target, r.port⟩, ["_minecraft._tcp." ++ host]))) := by
  refine ⟨?_, ?_⟩
  · intro p hp
    have hrange := (parse_address_ok hp).2 p rfl
    unfold JavaServer.lookup
    rw [hp]
    simp [Bind.bind, Except.bind, init_str_int host p hrange.1 hrange.2, pure, Except.pure]
  · intro hp
    refine ⟨?_, ?_⟩
    · intro hdns
      unfold JavaServer.lookup
      rw [hp]
      rcases hdns with hdns | hdns <;>
        simp [Bind.bind, Except.bind, hdns, init_str_int host 25565 (by omega) (by omega),
          pure, Except.pure]
    · intro r hdns h0 h1
      unfold JavaServer.lookup
      rw [hp]
      simp [Bind.bind, Except.bind, hdns, init_str_int (rstripDots r.target) r.port h0 h1,
        pure, Except.pure]

/-- C1 witness: concrete runs for the three branches — explicit port,
failing SRV lookup, and a single-record SRV answer. -/
theorem C1_witness :
    JavaServer.lookup (fun _ => .error ()) "example.com:1234" =
      .ok (⟨"example.com", 1234⟩, []) ∧
    JavaServer.lookup (fun _ => .error ()) "example.com" =
      .ok (⟨"example.com", 25565⟩, ["_minecraft._tcp.example.com"]) ∧
    JavaServer.lookup
        (fun q => if q = "_minecraft._tcp.example.com" then
            .ok [⟨"mc.example.net.", 1234⟩] else .error ()) "example.com" =
      .ok (⟨"mc.example.net", 1234⟩, ["_minecraft._tcp.example.com"]) := by
  refine ⟨?_, ?_, ?_⟩
  · exact (C1_java_lookup_resolution (fun _ => .error ()) "example.com:1234" "example.com").1
      1234 rfl
  · exact (((C1_java_lookup_resolution (fun _ => .error ()) "example.com" "example.com").2
      rfl).1) (Or.inl rfl)
  · exact (((C1_java_lookup_resolution _ "example.com" "example.com").2
      rfl).2) ⟨"mc.example.net.", 1234⟩ rfl (by decide) (by decide)

/-- C2 counterexample: an SRV lookup returning two records does not fall back
to `(host, 25565)` — the first record is used. -/
theorem C2_counterexample :
    JavaServer.lookup
        (fun q => if q = "_minecraft._tcp.example.com" then
            .ok [⟨"mc.example.net.", 1234⟩, ⟨"other.example.net.", 5678⟩]
          else .error ()) "example.com" =
      .ok (⟨"mc.example.net", 1234⟩, ["_minecraft._tcp.example.com"]) ∧
    (⟨"mc.example.net", 1234⟩ : MCServerT) ≠ ⟨"example.com", 25565⟩ := by
  exact ⟨rfl, by decide⟩

/-- C2 (amended): for every portless address whose SRV lookup returns one or
more records, `JavaServer.lookup` uses the first returned record's target and
port (it does not fall back to the literal host and 25565). -/
theorem C2_multi_record_uses_first (dns : DnsSrv) (address host : String)
    (r : SRVRecord) (rest : List SRVRecord)
    (hparse : MCServer.parse_address address = .ok (host, none))
    (hdns : dns ("_minecraft._tcp." ++ host) = .ok (r :: rest))
    (h0 : 0 ≤ r.port) (h1 : r.port ≤ 65535) :
    JavaServer.lookup dns address =
      .ok (⟨rstripDots r.target, r.port⟩, ["_minecraft._tcp." ++ host]) := by
  unfold JavaServer.lookup
  rw [hparse]
  simp [Bind.bind, Except.bind, hdns, init_str_int (rstripDots r.target) r.port h0 h1,
    pure, Except.pure]

/-- C2 witness: the two-record resolver, first record used. -/
theorem C2_witness :
    JavaServer.lookup
        (fun q => if q = "_minecraft._tcp.example.com" then
            .ok [⟨"mc.example.net.", 1234⟩, ⟨"other.example.net.", 5678⟩]
          else .error ()) "example.com" =
      .ok (⟨"mc.example.net", 1234⟩, ["_minecraft._tcp.example.com"]) := by
  exact C2_multi_record_uses_first _ "example.com" "example.com"
    ⟨"mc.example.net.", 1234⟩ [⟨"other.example.net.", 5678⟩]
    rfl rfl (by decide) (by decide)

/-- C3 counterexample: the Bedrock default port in this source is 19139, not
19132 — `BedrockServer.lookup "example.com"` yields port 19139. -/
theorem C3_counterexample :
    BedrockServer.lookup "example.com" = .ok ⟨"example.com", 19139⟩ ∧
    (19139 : Int) ≠ 19132 := ⟨rfl, by decide⟩

/-- C3 (amended): Bedrock resolution is parse-only (`BedrockServer.lookup`
consults no resolver and is fully determined by `MCServer.parse_address`), and
the default port used when the address has none is 19139. -/
theorem C3_bedrock_parse_only (address host : String) :
    (MCServer.parse_address address = .ok (host, none) →
       BedrockServer.lookup address = .ok ⟨host, 19139⟩) ∧
    (∀ p : Int, MCServer.parse_address address = .ok (host, some p) →
       BedrockServer.lookup address = .ok ⟨host, p⟩) := by
  refine ⟨?_, ?_⟩
  · intro hp
    unfold BedrockServer.lookup
    rw [hp]
    simp [Bind.bind, Except.bind, init_str_int host 19139 (by omega) (by omega)]
  · intro p hp
    have hrange := (parse_address_ok hp).2 p rfl
    unfold BedrockServer.lookup
    rw [hp]
    simp [Bind.bind, Except.bind, init_str_int host p hrange.1 hrange.2]

/-- C3 witness: concrete portless and port-carrying Bedrock addresses. -/
theorem C3_witness :
    BedrockServer.lookup "example.com" = .ok ⟨"example.com", 19139⟩ ∧
    BedrockServer.lookup "example.com:1234" = .ok ⟨"example.com", 1234⟩ := by
  refine ⟨?_, ?_⟩
  · exact (C3_bedrock_parse_only "example.com" "example.com").1 rfl
  · exact (C3_bedrock_parse_only "example.com:1234" "example.com").2 1234 rfl

theorem parse_motd_str (s : String) :
    JavaStatusResponse.parse_motd (.pystr s) = .ok s := rfl

theorem retryGo_zero {α : Type} (work : Nat → Except RetryErr α) (a : Nat) :
    retryGo work a 0 = work a := rfl

theorem retryGo_transient_step {α : Type} (work : Nat → Except RetryErr α)
    (a fuel : Nat) (m : String) (h : work a = .error (.transient m)) :
    retryGo work a (fuel + 1) = retryGo work (a + 1) fuel := by
  simp [retryGo, h]

theorem retryGo_terminal {α : Type} (work : Nat → Except RetryErr α)
    (a fuel : Nat) (m : String) (h : work a = .error (.terminal m)) :
    retryGo work a (fuel + 1) = .error (.terminal m) := by
  simp [retryGo, h]

/-- C4: every `status()` attempt composes `read_status()` then `test_ping()`
on the same handshaken channel: the attempt succeeds exactly when handshake,
status read and ping all succeed, the returned response's `latency` equals the
value `test_ping` returned with every other field as `read_status` produced
it, and a successful attempt runs handshake, status read and ping in that
order. -/
theorem C4_status_composes_read_then_ping (p : PingerOps) :
    (∀ resp, (JavaServer.retry_status_attempt p).1 = .ok resp ↔
       ∃ r l, p.handshake = .ok () ∧ p.read_status = .ok r ∧ p.test_ping = .ok l ∧
         resp = { r with latency := l }) ∧
    ((JavaServer.retry_status_attempt p).1.isOk = true →
       (JavaServer.retry_status_attempt p).2 =
         [.handshake, .readStatus, .testPing]) := by
  obtain ⟨hs, rs, tp⟩ := p
  cases hs with
  | error e => simp [JavaServer.retry_status_attempt, Except.isOk, Except.toBool]
  | ok u =>
    cases u
    cases rs with
    | error e => simp [JavaServer.retry_status_attempt, Except.isOk, Except.toBool]
    | ok r0 =>
      cases tp with
      | error e => simp [JavaServer.retry_status_attempt, Except.isOk, Except.toBool]
      | ok l0 =>
        constructor
        · intro resp
          constructor
          · intro h
            refine ⟨r0, l0, rfl, rfl, rfl, ?_⟩
            exact (Except.ok.inj h).symm
          · rintro ⟨r, l, -, hr, hl, hresp⟩
            obtain rfl : r0 = r := Except.ok.inj hr
            obtain rfl : l0 = l := Except.ok.inj hl
            rw [hresp]
            rfl
        · intro _
          rfl

/-- C4 witness: a concrete attempt whose three operations succeed. -/
theorem C4_witness :
    (JavaServer.retry_status_attempt ⟨.ok (), .ok sampleResponse, .ok 5⟩).1 =
      .ok { sampleResponse with latency := 5 } ∧
    (JavaServer.retry_status_attempt ⟨.ok (), .ok sampleResponse, .ok 5⟩).2 =
      [.handshake, .readStatus, .testPing] := by
  constructor
  · exact ((C4_status_composes_read_then_ping ⟨.ok (), .ok sampleResponse, .ok 5⟩).1
      { sampleResponse with latency := 5 }).mpr ⟨sampleResponse, 5, rfl, rfl, rfl, rfl⟩
  · exact (C4_status_composes_read_then_ping ⟨.ok (), .ok sampleResponse, .ok 5⟩).2 rfl

/-- C9: the retry wrapper with the attempt count 3 used at every call site —
two transient failures followed by a success return the success; three
transient failures propagate the final failure unchanged; a terminal
(validation-kind) failure propagates immediately without any retry; and every
`@retry` call site in `mcstatus/server.py` uses `tries=3`. -/
theorem C9_retry_semantics :
    (∀ (α : Type) (work : Nat → Except RetryErr α) (v : α) (m0 m1 : String),
       work 0 = .error (.transient m0) → work 1 = .error (.transient m1) →
       work 2 = .ok v → retry 3 work = .ok v) ∧
    (∀ (α : Type) (work : Nat → Except RetryErr α) (m0 m1 m2 : String),
       work 0 = .error (.transient m0) → work 1 = .error (.transient m1) →
       work 2 = .error (.transient m2) →
       retry 3 work = .error (.transient m2)) ∧
    (∀ (α : Type) (work : Nat → Except RetryErr α) (m : String),
       work 0 = .error (.terminal m) → retry 3 work = .error (.terminal m)) ∧
    (∀ site ∈ retryCallSiteTries, site.2 = 3) := by
  refine ⟨?_, ?_, ?_, ?_⟩
  · intro α work v m0 m1 h0 h1 h2
    calc retry 3 work = retryGo work 1 1 := retryGo_transient_step work 0 1 m0 h0
      _ = retryGo work 2 0 := retryGo_transient_step work 1 0 m1 h1
      _ = work 2 := retryGo_zero work 2
      _ = .ok v := h2
  · intro α work m0 m1 m2 h0 h1 h2
    calc retry 3 work = retryGo work 1 1 := retryGo_transient_step work 0 1 m0 h0
      _ = retryGo work 2 0 := retryGo_transient_step work 1 0 m1 h1
      _ = work 2 := retryGo_zero work 2
      _ = .error (.transient m2) := h2
  · intro α work m h0
    exact retryGo_terminal work 0 1 m h0
  · intro site hsite
    fin_cases hsite <;> rfl

/-- C9 witness: concrete units of work for the three retry behaviors (the
terminal one would succeed on the second attempt, showing it is not retried). -/
theorem C9_witness :
    retry 3 (fun i => if i = 0 then .error (.transient "a")
      else if i = 1 then .error (.transient "b") else .ok 42) = .ok 42 ∧
    retry 3 (fun i => if i = 0 then .error (.transient "a")
      else if i = 1 then .error (.transient "b")
      else (.error (.transient "c") : Except RetryErr Nat)) = .error (.transient "c") ∧
    retry 3 (fun i => if i = 0 then .error (.terminal "bad") else .ok 7) =
      .error (.terminal "bad") := by
  refine ⟨?_, ?_, ?_⟩
  · exact C9_retry_semantics.1 Nat _ 42 "a" "b" rfl rfl rfl
  · exact C9_retry_semantics.2.1 Nat _ "a" "b" "c" rfl rfl rfl
  · exact C9_retry_semantics.2.2.1 Nat _ "bad" rfl

/-- C6: building a Java status response from the test payload
(`description` "A Minecraft Server", `players` `{max: 20, online: 0}`,
`version` `{name: "1.8-pre1", protocol: 44}`, no `favicon` key) yields exactly
those players, version and motd values with `icon = none`. -/
theorem C6_sample_payload_build :
    JavaStatusResponse.build sampleRaw 0 =
      .ok ⟨sampleRaw, ⟨.pyint 0, .pyint 20, none⟩, ⟨.pystr "1.8-pre1", .pyint 44⟩,
           "A Minecraft Server", none, 0⟩ := rfl

/-- C5 counterexample: a payload whose three top-level keys are present with
the right types (top-level validation passes) but whose build still fails,
because the nested `players` dict is missing its own `online` key. -/
theorem C5_counterexample :
    _validate_data emptyPlayersRaw "status"
        [("players", .tdict), ("version", .tdict), ("description", .tstr)] = .ok () ∧
    JavaStatusResponse.build emptyPlayersRaw 0 =
      .error (.valueError "Invalid players object (no online value)") := ⟨rfl, rfl⟩

/-- C5 (amended): building fails with the validation error itself (never a
partial object) whenever the top-level validation of `players`, `version`,
`description` fails; and when it passes, the build succeeds exactly when the
nested `players` and `version` payloads also build successfully (the validated
string `description` then makes the MOTD parse total). -/
theorem C5_build_validation (raw : PyObj) (lat : ℚ) :
    (∀ e, _validate_data raw "status"
        [("players", .tdict), ("version", .tdict), ("description", .tstr)] = .error e →
       JavaStatusResponse.build raw lat = .error e) ∧
    ((JavaStatusResponse.build raw lat).isOk = true ↔
       ∃ pr vr d, _validate_data raw "status"
           [("players", .tdict), ("version", .tdict), ("description", .tstr)] = .ok () ∧
         pySubscript raw "players" = .ok pr ∧
         pySubscript raw "version" = .ok vr ∧
         pySubscript raw "description" = .ok (.pystr d) ∧
         (JavaStatusPlayers.build pr).isOk = true ∧
         (JavaStatusVersion.build vr).isOk = true) := by
  constructor
  · intro e he
    unfold JavaStatusResponse.build
    rw [he]
    rfl
  · constructor
    · intro hok
      rw [exceptIsOkIff] at hok
      obtain ⟨resp, hresp⟩ := hok
      unfold JavaStatusResponse.build at hresp
      rw [exceptBindOk] at hresp
      obtain ⟨u, hval, hresp⟩ := hresp
      rw [exceptBindOk] at hresp
      obtain ⟨pr, hpr, hresp⟩ := hresp
      rw [exceptBindOk] at hresp
      obtain ⟨vr, hvr, hresp⟩ := hresp
      rw [exceptBindOk] at hresp
      obtain ⟨dr, hdr, hresp⟩ := hresp
      rw [exceptBindOk] at hresp
      obtain ⟨pb, hpb, hresp⟩ := hresp
      rw [exceptBindOk] at hresp
      obtain ⟨vb, hvb, hresp⟩ := hresp
      cases u
      obtain ⟨v, hv, hinst⟩ := validate_data_mem hval "description" .tstr (by simp)
      obtain rfl : v = dr := by rw [hv] at hdr; exact Except.ok.inj hdr
      cases v with
      | pystr s =>
        refine ⟨pr, vr, s, hval, hpr, hvr, hv, ?_, ?_⟩
        · rw [exceptIsOkIff]; exact ⟨pb, hpb⟩
        · rw [exceptIsOkIff]; exact ⟨vb, hvb⟩
      | pyint n => simp [isinstance] at hinst
      | pybool b => simp [isinstance] at hinst
      | pydict d => simp [isinstance] at hinst
      | pylist l => simp [isinstance] at hinst
      | pynone => simp [isinstance] at hinst
    · rintro ⟨pr, vr, d, hval, hpr, hvr, hdr, hpok, hvok⟩
      rw [exceptIsOkIff] at hpok hvok
      obtain ⟨pb, hpb⟩ := hpok
      obtain ⟨vb, hvb⟩ := hvok
      rw [exceptIsOkIff]
      refine ⟨⟨raw, pb, vb, d, pyGet? raw "favicon", lat⟩, ?_⟩
      simp [JavaStatusResponse.build, Bind.bind, Except.bind, hval, hpr, hvr, hdr,
        hpb, hvb, parse_motd_str, pure, Except.pure]

/-- C5 witness: the amended theorem applied to a payload with a missing
top-level key (the validation error propagates) and to the full sample
payload (both sides of the characterization hold). -/
theorem C5_witness :
    JavaStatusResponse.build noPlayersRaw 0 =
      .error (.valueError "Invalid status object (no players value)") ∧
    (JavaStatusResponse.build sampleRaw 0).isOk = true := by
  constructor
  · exact (C5_build_validation noPlayersRaw 0).1
      (.valueError "Invalid status object (no players value)") rfl
  · exact ((C5_build_validation sampleRaw 0).2).mpr
      ⟨.pydict [("max", .pyint 20), ("online", .pyint 0)],
       .pydict [("name", .pystr "1.8-pre1"), ("protocol", .pyint 44)],
       "A Minecraft Server", rfl, rfl, rfl, rfl, rfl, rfl⟩

/-- C7: for every decoded Bedrock field list carrying the six required
positions (indices 0–5, with the integer fields at positions 2, 4 and 5
convertible by `int(...)`), the build succeeds even when positions 7 and/or 8
are absent: a list too short for index 7 yields `map_name = none`, and one too
short for index 8 yields `gamemode = none`, instead of the build failing. -/
theorem C7_bedrock_optional_fields (xs : List PyObj) (lat : ℚ)
    (hlen : 6 ≤ xs.length)
    (h2 : ∃ v n, xs.get? 2 = some v ∧ pyIntConv v = .ok n)
    (h4 : ∃ v n, xs.get? 4 = some v ∧ pyIntConv v = .ok n)
    (h5 : ∃ v n, xs.get? 5 = some v ∧ pyIntConv v = .ok n) :
    ∃ r, BedrockStatusResponse.build xs lat = .ok r ∧
      (xs.length ≤ 7 → r.map_name = none) ∧
      (xs.length ≤ 8 → r.gamemode = none) := by
  obtain ⟨v2, n2, hv2, hn2⟩ := h2
  obtain ⟨v4, n4, hv4, hn4⟩ := h4
  obtain ⟨v5, n5, hv5, hn5⟩ := h5
  obtain ⟨v0, hv0⟩ : ∃ v, xs.get? 0 = some v := ⟨xs.get ⟨0, by omega⟩, List.get?_eq_get (by omega)⟩
  obtain ⟨v1, hv1⟩ : ∃ v, xs.get? 1 = some v := ⟨xs.get ⟨1, by omega⟩, List.get?_eq_get (by omega)⟩
  obtain ⟨v3, hv3⟩ : ∃ v, xs.get? 3 = some v := ⟨xs.get ⟨3, by omega⟩, List.get?_eq_get (by omega)⟩
  refine ⟨⟨⟨n4, n5⟩, ⟨v3, n2, v0⟩, v1, lat, xs.get? 7, xs.get? 8⟩, ?_, ?_, ?_⟩
  · rw [List.get?_eq_getElem?] at hv0 hv1 hv2 hv3 hv4 hv5
    simp [BedrockStatusResponse.build, pyIndex, Bind.bind, Except.bind,
      hv0, hv1, hv2, hv3, hv4, hv5, hn2, hn4, hn5, pure, Except.pure]
  · intro h7
    exact List.get?_eq_none.mpr h7
  · intro h8
    exact List.get?_eq_none.mpr h8

/-- C7 witness: a six-field decoded list (as a Bedrock server that sends no
optional fields produces) builds with `map_name` and `gamemode` equal to
`none`. -/
theorem C7_witness :
    ∃ r, BedrockStatusResponse.build
        [.pystr "MCPE", .pystr "motd", .pystr "422", .pystr "1.18.0",
         .pystr "1", .pystr "69"] 42 = .ok r ∧
      r.map_name = none ∧ r.gamemode = none := by
  obtain ⟨r, hr, h7, h8⟩ := C7_bedrock_optional_fields
    [.pystr "MCPE", .pystr "motd", .pystr "422", .pystr "1.18.0", .pystr "1", .pystr "69"] 42
    (by decide)
    ⟨.pystr "422", 422, rfl, rfl⟩
    ⟨.pystr "1", 1, rfl, rfl⟩
    ⟨.pystr "69", 69, rfl, rfl⟩
  exact ⟨r, hr, h7 (by decide), h8 (by decide)⟩

/-- C8 counterexample: direct construction with an empty host string succeeds
(`ensure_valid` never checks non-emptiness), violating the claimed
"construction fails for an empty host". -/
theorem C8_counterexample :
    MCServer.init (.pystr "") (.pyint 25565) = .ok ⟨"", 25565⟩ := rfl

/-- C8 (amended): a successfully constructed handle has its port in
`[0, 65535]` and its host the given string; construction fails for any port
outside that range and for any non-string host; an empty host is rejected by
`parse_address` (every parsed host is non-empty) but not by direct
construction. -/
theorem C8_handle_invariants (host port : PyObj) (address : String) :
    (∀ srv, MCServer.init host port = .ok srv →
       0 ≤ srv.port ∧ srv.port ≤ 65535 ∧ host = .pystr srv.host) ∧
    (∀ p : Int, p < 0 ∨ 65535 < p →
       (MCServer.init host (.pyint p)).isOk = false) ∧
    ((∀ s, host ≠ .pystr s) →
       MCServer.init host port = .error (.typeError "Host must be a string address")) ∧
    (∀ h po, MCServer.parse_address address = .ok (h, po) → h ≠ "") := by
  refine ⟨?_, ?_, ?_, ?_⟩
  · intro srv hsrv
    unfold MCServer.init at hsrv
    rw [exceptBindOk] at hsrv
    obtain ⟨u, hval, hsrv⟩ := hsrv
    cases u
    obtain ⟨⟨s, rfl⟩, hlo, hhi⟩ := ensure_valid_ok hval
    obtain rfl : ({ host := pyAsStr (.pystr s), port := pyAsInt port } : MCServerT) = srv :=
      Except.ok.inj hsrv
    exact ⟨hlo, hhi, rfl⟩
  · intro p hp
    cases hs : isinstance host .tstr with
    | false =>
      unfold MCServer.init MCServer.ensure_valid
      rw [if_pos (by simp [hs])]
      rfl
    | true =>
      unfold MCServer.init MCServer.ensure_valid
      rw [if_neg (by simp [hs]), if_neg (by simp [isinstance]),
        if_pos (show pyAsInt (.pyint p) > 65535 ∨ pyAsInt (.pyint p) < 0 by
          simp [pyAsInt]; omega)]
      rfl
  · intro hnot
    have hs : isinstance host .tstr = false := by
      cases host with
      | pystr s => exact absurd rfl (hnot s)
      | pyint n => rfl
      | pybool b => rfl
      | pydict d => rfl
      | pylist l => rfl
      | pynone => rfl
    unfold MCServer.init MCServer.ensure_valid
    rw [if_pos (by simp [hs])]
    rfl
  · intro h po hpo
    exact (parse_address_ok hpo).1

/-- C8 witness: a valid construction satisfying the invariant, an
out-of-range port rejected, a non-string host rejected, and a parsed host
shown non-empty. -/
theorem C8_witness :
    (0 ≤ (25565 : Int) ∧ (25565 : Int) ≤ 65535 ∧
      PyObj.pystr "example.com" = .pystr (MCServerT.host ⟨"example.com", 25565⟩)) ∧
    (MCServer.init (.pystr "example.com") (.pyint 70000)).isOk = false ∧
    MCServer.init .pynone (.pyint 25565) =
      .error (.typeError "Host must be a string address") ∧
    "example.com" ≠ "" := by
  refine ⟨?_, ?_, ?_, ?_⟩
  · exact (C8_handle_invariants (.pystr "example.com") (.pyint 25565) "example.com").1
      ⟨"example.com", 25565⟩ rfl
  · exact (C8_handle_invariants (.pystr "example.com") (.pyint 25565) "example.com").2.1
      70000 (Or.inr (by omega))
  · exact (C8_handle_invariants .pynone (.pyint 25565) "example.com").2.2.1
      (fun s h => PyObj.noConfusion h)
  · exact (C8_handle_invariants .pynone (.pyint 25565) "example.com:1234").2.2.2
      "example.com" (some 1234) rfl

/-- C10: the MOTD rich-text-to-legacy transform is the identity on plain
string inputs — `parse_motd` returns a string description unchanged, and a
built response's `motd` equals the payload's string `description` exactly (the
dict/list transform branches are reached only for non-string descriptions). -/
theorem C10_motd_string_identity :
    (∀ m : String, JavaStatusResponse.parse_motd (.pystr m) = .ok m) ∧
    (∀ (d : List (String × PyObj)) (s : String) (lat : ℚ) (r : JavaStatusResponse),
       assocFind? d "description" = some (.pystr s) →
       JavaStatusResponse.build (.pydict d) lat = .ok r → r.motd = s) := by
  constructor
  · intro m
    rfl
  · intro d s lat r hd hb
    unfold JavaStatusResponse.build at hb
    rw [exceptBindOk] at hb
    obtain ⟨u, hval, hb⟩ := hb
    rw [exceptBindOk] at hb
    obtain ⟨pr, hpr, hb⟩ := hb
    rw [exceptBindOk] at hb
    obtain ⟨vr, hvr, hb⟩ := hb
    rw [exceptBindOk] at hb
    obtain ⟨dr, hdr, hb⟩ := hb
    obtain rfl : PyObj.pystr s = dr := by
      have : pySubscript (.pydict d) "description" = .ok (.pystr s) := by
        simp [pySubscript, hd]
      rw [this] at hdr
      exact Except.ok.inj hdr
    rw [exceptBindOk] at hb
    obtain ⟨pb, hpb, hb⟩ := hb
    rw [exceptBindOk] at hb
    obtain ⟨vb, hvb, hb⟩ := hb
    rw [exceptBindOk] at hb
    obtain ⟨motd, hmotd, hb⟩ := hb
    obtain rfl : s = motd := Except.ok.inj hmotd
    have : ({ raw := .pydict d, players := pb, version := vb, motd := s,
              icon := pyGet? (.pydict d) "favicon", latency := lat } : JavaStatusResponse)
        = r := Except.ok.inj hb
    rw [← this]

/-- C10 witness: the identity on a concrete string, and the sample payload's
built motd equals its string description. -/
theorem C10_witness :
    JavaStatusResponse.parse_motd (.pystr "hello") = .ok "hello" ∧
    (⟨sampleRaw, ⟨.pyint 0, .pyint 20, none⟩, ⟨.pystr "1.8-pre1", .pyint 44⟩,
      "A Minecraft Server", none, 0⟩ : JavaStatusResponse).motd = "A Minecraft Server" := by
  constructor
  · exact C10_motd_string_identity.1 "hello"
  · exact C10_motd_string_identity.2 sampleRawEntries "A Minecraft Server" 0
      ⟨sampleRaw, ⟨.pyint 0, .pyint 20, none⟩, ⟨.pystr "1.8-pre1", .pyint 44⟩,
       "A Minecraft Server", none, 0⟩ rfl rfl

end Mcstatus
